import Mathlib

/-!
Verification of the `force_ipv4.c` LD_PRELOAD shim.

The shim has two pieces:

* `lookup_override` — scans the `CURSOR_DNS_OVERRIDES` environment variable
  ("host1=ip1,host2=ip2,...") for an entry whose pattern matches the target
  hostname, and on a match parses the entry's dotted-decimal IPv4 literal.
* `getaddrinfo` — the interposed resolver entry point: on an override match it
  re-issues the request against the literal IP with `AI_NUMERICHOST`, otherwise
  it forwards the request with the address family forced to `AF_INET`.

C strings are modelled as `List Char` (byte-for-byte, no NUL terminator); the
process environment is a map from variable names to optional values; the real
resolver is an oracle parameter returning a status and an opaque result.
-/

namespace ForceIpv4

/-- A C string (sequence of bytes, here ASCII chars). -/
abbrev Str := List Char

/-- The process environment: variable name to optional value. -/
abbrev Env := String → Option Str

/-- Name of the override configuration variable. -/
def CURSOR_DNS_OVERRIDES : String := "CURSOR_DNS_OVERRIDES"

/-- An environment in which `CURSOR_DNS_OVERRIDES` has the given (optional)
value and every other variable is unset. -/
def envOf (cfg : Option Str) : Env :=
  fun name => if name = CURSOR_DNS_OVERRIDES then cfg else none

/-- `struct in_addr`, as its four octets. -/
structure InAddr where
  o0 : Nat
  o1 : Nat
  o2 : Nat
  o3 : Nat
deriving DecidableEq, Repr

/-- The four `struct addrinfo` hint fields the shim reads or writes. -/
structure addrinfo where
  ai_flags : Nat
  ai_family : Nat
  ai_socktype : Nat
  ai_protocol : Nat
deriving DecidableEq, Repr

def AF_INET : Nat := 2
def SOCK_STREAM : Nat := 1
def AI_NUMERICHOST : Nat := 4

/-- glibc `inet_pton(AF_INET, …)` main loop (BIND `inet_pton4`): `cur` is the
octet being accumulated (`*tp`), `octets` counts started octets, `sawDigit`
mirrors `saw_digit`, `acc` holds the completed octets. -/
def pton4Core : Str → Nat → Nat → Bool → List Nat → Option (List Nat)
  | [], cur, octets, _, acc =>
      if octets = 4 then some (acc ++ [cur]) else none
  | ch :: rest, cur, octets, sawDigit, acc =>
      if '0' ≤ ch ∧ ch ≤ '9' then
        let v := cur * 10 + (ch.toNat - '0'.toNat)
        if sawDigit ∧ cur = 0 then none
        else if 255 < v then none
        else if sawDigit then pton4Core rest v octets true acc
        else if 4 ≤ octets then none
        else pton4Core rest v (octets + 1) true acc
      else if ch = '.' ∧ sawDigit then
        if octets = 4 then none
        else pton4Core rest 0 octets false (acc ++ [cur])
      else none

/-- `inet_pton(AF_INET, s, addr)`: `some` of the parsed address exactly when
the call returns 1. -/
def inet_pton (s : Str) : Option InAddr :=
  match pton4Core s 0 0 false [] with
  | some [a, b, c, d] => some ⟨a, b, c, d⟩
  | _ => none

/-- `inet_ntop(AF_INET, …)`: render the address in dotted decimal. -/
def inet_ntop (a : InAddr) : Str :=
  Nat.toDigits 10 a.o0 ++ '.' :: Nat.toDigits 10 a.o1 ++
    '.' :: Nat.toDigits 10 a.o2 ++ '.' :: Nat.toDigits 10 a.o3

/-- Split a byte string at every `','` (empty pieces included). -/
def splitComma : Str → List Str
  | [] => [[]]
  | c :: rest =>
      if c = ',' then [] :: splitComma rest
      else
        match splitComma rest with
        | [] => [[c]]
        | t :: ts => (c :: t) :: ts

/-- The token sequence produced by `strtok_r(buf, ",", …)`: maximal nonempty
runs of non-comma bytes, in order. -/
def strtok (s : Str) : List Str :=
  (splitComma s).filter (fun t => t ≠ [])

/-- `strchr(tok, '=')` followed by `*eq = 0`: split a token at its first `'='`
into `(host, ip)`; `none` when the token has no `'='`. -/
def splitEq : Str → Option (Str × Str)
  | [] => none
  | c :: rest =>
      if c = '=' then some ([], rest)
      else
        match splitEq rest with
        | none => none
        | some (h, i) => some (c :: h, i)

/-- The suffix comparison of the wildcard branch:
`nlen >= slen && strcmp(node + nlen - slen, suffix) == 0`. -/
def suffixMatches (suffix node : Str) : Bool :=
  if suffix.length ≤ node.length ∧
      node.drop (node.length - suffix.length) = suffix then true else false

/-- The wildcard branch: `host[0] == '*' && host[1] == '.'`, with
`suffix = host + 1`. -/
def wildcardMatches (host node : Str) : Bool :=
  match host with
  | h0 :: h1 :: hrest =>
      if h0 = '*' ∧ h1 = '.' then suffixMatches (h1 :: hrest) node
      else false
  | _ => false

/-- Whether an entry's pattern matches the node: exact `strcmp` match first,
otherwise the wildcard suffix branch.  In the C loop both matching branches
set `found` from the same parse and `break`, so they are combined here. -/
def patternMatches (host node : Str) : Bool :=
  if host = node then true
  else wildcardMatches host node

/-- The `strtok_r` loop of `lookup_override` over the remaining tokens:
tokens without `'='` are skipped; at the first token whose pattern matches,
the scan stops and the result is the parse of that token's IP literal. -/
def scanTokens : List Str → Str → Option InAddr
  | [], _ => none
  | tok :: rest, node =>
      match splitEq tok with
      | none => scanTokens rest node
      | some (host, ip) =>
          if patternMatches host node then inet_pton ip
          else scanTokens rest node

/-- `lookup_override(node, addr)`: reads `CURSOR_DNS_OVERRIDES` via `getenv`,
returns 0 when the variable or the node is absent, copies the value with
`strdup` (whose success is the explicit `strdup_ok` input) and scans its
comma-separated tokens.  `some a` models “returns 1 and fills `addr` with
`a`”; `none` models “returns 0”. -/
def lookup_override (strdup_ok : Bool) (environ : Env) (node : Option Str) :
    Option InAddr :=
  match environ CURSOR_DNS_OVERRIDES, node with
  | some env, some n =>
      if strdup_ok then scanTokens (strtok env) n else none
  | _, _ => none

/-- An all-zero `struct addrinfo` (`{0}` / `memset` initialisation). -/
def zero_hints : addrinfo :=
  { ai_flags := 0, ai_family := 0, ai_socktype := 0, ai_protocol := 0 }

/-- The interposed `getaddrinfo`.  `real` is the lazily-bound real resolver
(modelled as an oracle from `(node, service, hints)` to a status and an opaque
result `R`).  On an override match it builds `override_hints` and calls the
real resolver on the rendered numeric IP; otherwise it forwards the call with
`ai_family` forced to `AF_INET`. -/
def getaddrinfo {R : Type} (real : Option Str → Option Str → Option addrinfo → Int × R)
    (strdup_ok : Bool) (environ : Env)
    (node service : Option Str) (hints : Option addrinfo) : Int × R :=
  match (match node with
         | some _ => lookup_override strdup_ok environ node
         | none => none) with
  | some override_addr =>
      let override_hints : addrinfo :=
        { ai_flags := AI_NUMERICHOST
          ai_family := AF_INET
          ai_socktype := match hints with | some h => h.ai_socktype | none => SOCK_STREAM
          ai_protocol := match hints with | some h => h.ai_protocol | none => 0 }
      real (some (inet_ntop override_addr)) service (some override_hints)
  | none =>
      let modified_hints : addrinfo :=
        { (match hints with | some h => h | none => zero_hints) with
            ai_family := AF_INET }
      real node service (some modified_hints)

/-- Whether a raw token, after the `'='` split, has a pattern matching `node`
(malformed tokens match nothing). -/
def entryMatches (tok node : Str) : Bool :=
  match splitEq tok with
  | none => false
  | some (host, _) => patternMatches host node

/-- A concrete real-resolver oracle used by the witnesses. -/
def real0 : Option Str → Option Str → Option addrinfo → Int × Nat :=
  fun _ _ _ => (0, 0)

/-- A sample environment that also carries an unrelated variable. -/
def env_with_extra : Env := fun name =>
  if name = "HOME" then some ['/', 'h'] else envOf (some "a=1.2.3.4".data) name

/-! ### Helper lemmas -/

theorem scanTokens_cons (tok : Str) (rest : List Str) (node : Str) :
    scanTokens (tok :: rest) node =
      match splitEq tok with
      | none => scanTokens rest node
      | some (host, ip) =>
          if patternMatches host node then inet_pton ip
          else scanTokens rest node := rfl

theorem scanTokens_skip (tok : Str) (rest : List Str) (node : Str)
    (h : entryMatches tok node = false) :
    scanTokens (tok :: rest) node = scanTokens rest node := by
  rw [scanTokens_cons]
  unfold entryMatches at h
  cases hsp : splitEq tok with
  | none => rfl
  | some p =>
      obtain ⟨host, ip⟩ := p
      rw [hsp] at h
      simp only at h
      simp [h]

theorem scanTokens_append_of_no_match (pre l : List Str) (node : Str)
    (h : ∀ t ∈ pre, entryMatches t node = false) :
    scanTokens (pre ++ l) node = scanTokens l node := by
  induction pre with
  | nil => rfl
  | cons t pre ih =>
      rw [List.cons_append,
        scanTokens_skip t (pre ++ l) node (h t (List.mem_cons_self t pre))]
      exact ih fun u hu => h u (List.mem_cons_of_mem t hu)

theorem suffixMatches_iff (s n : Str) :
    suffixMatches s n = true ↔
      s.length ≤ n.length ∧ n.drop (n.length - s.length) = s := by
  unfold suffixMatches
  split
  · simp_all
  · simp_all

theorem envOf_apply (cfg : Option Str) :
    envOf cfg CURSOR_DNS_OVERRIDES = cfg := by
  unfold envOf
  rw [if_pos rfl]

theorem patternMatches_self (node : Str) : patternMatches node node = true := by
  unfold patternMatches
  rw [if_pos rfl]

/-! ### Claim theorems -/

/-- Claim C1: for every hostname and every wildcard pattern `*.suffix`, the
entry matches iff the hostname is at least as long as `.suffix` and its
trailing bytes equal `.suffix` byte-for-byte; in particular `example.com` is
not matched by `*.example.com`. -/
theorem C1_wildcard_iff_suffix :
    (∀ (s node : Str),
        patternMatches ('*' :: '.' :: s) node = true ↔
          ('.' :: s).length ≤ node.length ∧
            node.drop (node.length - ('.' :: s).length) = ('.' :: s))
      ∧ patternMatches "*.example.com".data "example.com".data = false := by
  refine ⟨fun s node => ?_, by decide⟩
  unfold patternMatches
  by_cases h : ('*' :: '.' :: s) = node
  · subst h
    rw [if_pos rfl]
    simp only [List.length_cons, true_iff]
    refine ⟨by omega, ?_⟩
    have h1 : s.length + 1 + 1 - (s.length + 1) = 1 := by omega
    rw [h1]
    rfl
  · rw [if_neg h]
    have hw : wildcardMatches ('*' :: '.' :: s) node = suffixMatches ('.' :: s) node := by
      show (if '*' = '*' ∧ '.' = '.' then suffixMatches ('.' :: s) node else false) =
        suffixMatches ('.' :: s) node
      rw [if_pos ⟨rfl, rfl⟩]
    rw [hw, suffixMatches_iff]

/-- Claim C2: first-match-wins — if an entry whose pattern exactly equals the
hostname appears before any other matching entry, the lookup returns that
entry's IP literal parsed as dotted-decimal IPv4 (assuming it parses). -/
theorem C2_first_match_exact (cfg node ip : Str) (pre rest : List Str)
    (tok : Str) (a : InAddr)
    (hsplit : strtok cfg = pre ++ tok :: rest)
    (hpre : ∀ t ∈ pre, entryMatches t node = false)
    (htok : splitEq tok = some (node, ip))
    (hip : inet_pton ip = some a) :
    lookup_override true (envOf (some cfg)) (some node) = some a := by
  unfold lookup_override
  rw [envOf_apply]
  simp only [if_true]
  rw [hsplit, scanTokens_append_of_no_match pre (tok :: rest) node hpre,
    scanTokens_cons, htok]
  simp [patternMatches_self, hip]

/-- Claim C2 witness: `a=1.1.1.1,a=2.2.2.2` resolves `a` to `1.1.1.1`. -/
theorem C2_witness :
    lookup_override true (envOf (some "a=1.1.1.1,a=2.2.2.2".data))
      (some "a".data) = some ⟨1, 1, 1, 1⟩ :=
  C2_first_match_exact "a=1.1.1.1,a=2.2.2.2".data "a".data "1.1.1.1".data
    [] ["a=2.2.2.2".data] "a=1.1.1.1".data ⟨1, 1, 1, 1⟩
    (by decide) (by simp) (by decide) (by decide)

/-- Claim C3: the scan stops at the first entry whose pattern matches,
regardless of whether its literal parses — a matching pattern with an
unparsable literal yields "no override" even when a later entry would have
matched with a valid literal. -/
theorem C3_stop_at_first_pattern_match (cfg node host ip : Str)
    (pre rest : List Str) (tok : Str)
    (hsplit : strtok cfg = pre ++ tok :: rest)
    (hpre : ∀ t ∈ pre, entryMatches t node = false)
    (htok : splitEq tok = some (host, ip))
    (hmatch : patternMatches host node = true)
    (hip : inet_pton ip = none) :
    lookup_override true (envOf (some cfg)) (some node) = none := by
  unfold lookup_override
  rw [envOf_apply]
  simp only [if_true]
  rw [hsplit, scanTokens_append_of_no_match pre (tok :: rest) node hpre,
    scanTokens_cons, htok]
  simp [hmatch, hip]

/-- Claim C3 witness: `a=not-an-ip,a=3.3.3.3` yields no override for `a`,
even though the later entry also matches and parses. -/
theorem C3_witness :
    lookup_override true (envOf (some "a=not-an-ip,a=3.3.3.3".data))
      (some "a".data) = none :=
  C3_stop_at_first_pattern_match "a=not-an-ip,a=3.3.3.3".data "a".data
    "a".data "not-an-ip".data [] ["a=3.3.3.3".data] "a=not-an-ip".data
    (by decide) (by simp) (by decide) (by decide) (by decide)

/-- Claim C4: on an override match the interceptor calls the real resolver
with the rendered numeric IP, `AI_NUMERICHOST`, `AF_INET`, the original
service, the original socket type and protocol when hints are present
(socket type defaulting to `SOCK_STREAM` otherwise), and returns the real
resolver's status and result verbatim. -/
theorem C4_override_branch {R : Type}
    (real : Option Str → Option Str → Option addrinfo → Int × R)
    (environ : Env) (node : Str) (service : Option Str)
    (hints : Option addrinfo) (a : InAddr)
    (h : lookup_override true environ (some node) = some a) :
    getaddrinfo real true environ (some node) service hints =
      real (some (inet_ntop a)) service
        (some { ai_flags := AI_NUMERICHOST
                ai_family := AF_INET
                ai_socktype := match hints with
                               | some hh => hh.ai_socktype | none => SOCK_STREAM
                ai_protocol := match hints with
                               | some hh => hh.ai_protocol | none => 0 }) := by
  simp only [getaddrinfo]
  rw [h]

/-- Claim C4 witness: `foo.test=203.0.113.9` routes `foo.test` to the real
resolver as the literal `203.0.113.9` with numeric-host IPv4 hints. -/
theorem C4_witness :
    getaddrinfo real0 true (envOf (some "foo.test=203.0.113.9".data))
        (some "foo.test".data) none none =
      real0 (some (inet_ntop ⟨203, 0, 113, 9⟩)) none
        (some { ai_flags := AI_NUMERICHOST, ai_family := AF_INET,
                ai_socktype := SOCK_STREAM, ai_protocol := 0 }) :=
  C4_override_branch real0 (envOf (some "foo.test=203.0.113.9".data))
    "foo.test".data none none ⟨203, 0, 113, 9⟩ (by decide)

/-- Claim C5: with no override match (including an absent hostname) the
interceptor forwards the original hostname and service, with the original
hints except that the address family is forced to `AF_INET` (an empty hints
structure is used when none were supplied), and returns the real resolver's
status and result verbatim. -/
theorem C5_fallback_forces_family {R : Type}
    (real : Option Str → Option Str → Option addrinfo → Int × R)
    (environ : Env) (node service : Option Str) (hints : Option addrinfo)
    (h : node = none ∨ lookup_override true environ node = none) :
    getaddrinfo real true environ node service hints =
      real node service
        (some { ai_flags := (hints.getD zero_hints).ai_flags
                ai_family := AF_INET
                ai_socktype := (hints.getD zero_hints).ai_socktype
                ai_protocol := (hints.getD zero_hints).ai_protocol }) := by
  have hov : (match node with
              | some _ => lookup_override true environ node
              | none => none) = none := by
    cases node with
    | none => rfl
    | some n =>
        rcases h with h | h
        · exact absurd h (by simp)
        · exact h
  simp only [getaddrinfo]
  rw [hov]
  cases hints <;> rfl

/-- Claim C5 witness: a non-matching lookup with an explicit IPv6 family hint
is forwarded with the family overwritten to `AF_INET` and the other hint
fields unchanged. -/
theorem C5_witness :
    getaddrinfo real0 true (envOf (some "other.test=10.0.0.1".data))
        (some "example.org".data) none
        (some { ai_flags := 0, ai_family := 10, ai_socktype := 1,
                ai_protocol := 6 }) =
      real0 (some "example.org".data) none
        (some { ai_flags := 0, ai_family := AF_INET, ai_socktype := 1,
                ai_protocol := 6 }) :=
  C5_fallback_forces_family real0 (envOf (some "other.test=10.0.0.1".data))
    (some "example.org".data) none
    (some { ai_flags := 0, ai_family := 10, ai_socktype := 1,
            ai_protocol := 6 })
    (Or.inr (by decide))

/-- Claim C6: the override lookup never reports an error — an absent
hostname, an unset configuration variable, and an empty configuration string
all yield "no match", and an entry without `=` is skipped silently with the
scan continuing on the remaining entries. -/
theorem C6_no_error_conditions :
    (∀ (ok : Bool) (environ : Env), lookup_override ok environ none = none)
      ∧ (∀ (ok : Bool) (node : Option Str),
          lookup_override ok (envOf none) node = none)
      ∧ (∀ (ok : Bool) (node : Str),
          lookup_override ok (envOf (some [])) (some node) = none)
      ∧ (∀ (tok : Str) (rest : List Str) (node : Str),
          splitEq tok = none →
            scanTokens (tok :: rest) node = scanTokens rest node) := by
  refine ⟨?_, ?_, ?_, ?_⟩
  · intro ok environ
    unfold lookup_override
    cases environ CURSOR_DNS_OVERRIDES <;> rfl
  · intro ok node
    unfold lookup_override
    rw [envOf_apply]
  · intro ok node
    unfold lookup_override
    rw [envOf_apply]
    cases ok <;> rfl
  · intro tok rest node hsp
    rw [scanTokens_cons, hsp]

/-- Claim C6 witness: the malformed entry `noequals` is skipped and the scan
continues with the rest of the entries. -/
theorem C6_witness :
    scanTokens ["noequals".data, "b=2.2.2.2".data] "b".data =
      scanTokens ["b=2.2.2.2".data] "b".data :=
  C6_no_error_conditions.2.2.2 "noequals".data ["b=2.2.2.2".data] "b".data
    (by decide)

/-- Claim C7: the override lookup is a pure function of the configuration
string and the target hostname — two environments agreeing on
`CURSOR_DNS_OVERRIDES` give identical match results for every hostname, so
two calls with the same two inputs always produce the same result. -/
theorem C7_pure_in_config_and_node (ok : Bool) (env1 env2 : Env)
    (node : Option Str)
    (h : env1 CURSOR_DNS_OVERRIDES = env2 CURSOR_DNS_OVERRIDES) :
    lookup_override ok env1 node = lookup_override ok env2 node := by
  unfold lookup_override
  rw [h]

/-- Claim C7 witness: an unrelated environment variable does not affect the
lookup. -/
theorem C7_witness :
    lookup_override true env_with_extra (some "a".data) =
      lookup_override true (envOf (some "a=1.2.3.4".data)) (some "a".data) :=
  C7_pure_in_config_and_node true env_with_extra
    (envOf (some "a=1.2.3.4".data)) (some "a".data) (by decide)

/-- Claim C9: in the override branch the caller's hint flags (and family) are
discarded — the synthesized request carries `AI_NUMERICHOST` alone as its
flags, whatever flags were supplied. -/
theorem C9_flags_not_preserved {R : Type}
    (real : Option Str → Option Str → Option addrinfo → Int × R)
    (environ : Env) (node : Str) (service : Option Str)
    (flags family socktype protocol : Nat) (a : InAddr)
    (h : lookup_override true environ (some node) = some a) :
    getaddrinfo real true environ (some node) service
        (some { ai_flags := flags, ai_family := family,
                ai_socktype := socktype, ai_protocol := protocol }) =
      real (some (inet_ntop a)) service
        (some { ai_flags := AI_NUMERICHOST, ai_family := AF_INET,
                ai_socktype := socktype, ai_protocol := protocol }) := by
  simp only [getaddrinfo]
  rw [h]

/-- Claim C9 witness: canonical-name flags (value 2) supplied by the caller
are replaced by `AI_NUMERICHOST` alone in the synthesized request. -/
theorem C9_witness :
    getaddrinfo real0 true (envOf (some "x.test=8.8.8.8".data))
        (some "x.test".data) none
        (some { ai_flags := 2, ai_family := 10, ai_socktype := 1,
                ai_protocol := 6 }) =
      real0 (some (inet_ntop ⟨8, 8, 8, 8⟩)) none
        (some { ai_flags := AI_NUMERICHOST, ai_family := AF_INET,
                ai_socktype := 1, ai_protocol := 6 }) :=
  C9_flags_not_preserved real0 (envOf (some "x.test=8.8.8.8".data))
    "x.test".data none 2 10 1 6 ⟨8, 8, 8, 8⟩ (by decide)

/-- Claim C10: when the `strdup` working-copy allocation fails the lookup
reports "no match" (never an error), and the whole request then takes the
family-forced fallback path to the real resolver. -/
theorem C10_alloc_failure_no_match :
    (∀ (environ : Env) (node : Option Str),
        lookup_override false environ node = none)
      ∧ (∀ (R : Type)
          (real : Option Str → Option Str → Option addrinfo → Int × R)
          (environ : Env) (node service : Option Str)
          (hints : Option addrinfo),
          getaddrinfo real false environ node service hints =
            real node service
              (some { ai_flags := (hints.getD zero_hints).ai_flags
                      ai_family := AF_INET
                      ai_socktype := (hints.getD zero_hints).ai_socktype
                      ai_protocol := (hints.getD zero_hints).ai_protocol })) := by
  have h1 : ∀ (environ : Env) (node : Option Str),
      lookup_override false environ node = none := by
    intro environ node
    unfold lookup_override
    cases environ CURSOR_DNS_OVERRIDES <;> cases node <;> rfl
  refine ⟨h1, ?_⟩
  intro R real environ node service hints
  have hov : (match node with
              | some _ => lookup_override false environ node
              | none => none) = none := by
    cases node with
    | none => rfl
    | some n => exact h1 environ (some n)
  simp only [getaddrinfo]
  rw [hov]
  cases hints <;> rfl

end ForceIpv4
